import Mathlib

set_option maxRecDepth 16384

/-!
Verification of the transaction-categorization pipeline of the `finances`
repository.  The Python sources under `src/categorizer` are shallowly
embedded below: pure string manipulation becomes Lean string functions,
`json.loads` becomes an executable JSON parser returning `Option`,
DataFrame rows become typed records, `pd.merge(..., how='left')` becomes an
explicit left join on lists, and Python exceptions become `Except` values.
-/

/-- Python `str.strip()` whitespace test, covering the ASCII whitespace
characters Python strips: space, tab, newline, carriage return, vertical
tab (11) and form feed (12). -/
def pyIsSpace (c : Char) : Bool :=
  c == ' ' || c == '\t' || c == '\n' || c == '\r' || c.toNat == 11 || c.toNat == 12

/-- Python `str.strip()`: remove leading and trailing whitespace. -/
def pyStrip (s : String) : String :=
  String.mk (((s.toList.dropWhile pyIsSpace).reverse.dropWhile pyIsSpace).reverse)

/-- Python `needle in haystack` on strings: substring containment. -/
def strContains (hay needle : String) : Bool :=
  (List.range (hay.toList.length + 1)).any
    (fun i => needle.toList.isPrefixOf (hay.toList.drop i))

/-! JSON values and a model of Python `json.loads`.  Numbers keep their
source lexeme: the embedding never computes with them, it only carries
them through, so no floating-point semantics is needed. -/

/-- A parsed JSON value, as produced by Python `json.loads`. -/
inductive JValue where
  | null : JValue
  | bool : Bool → JValue
  | num : String → JValue
  | str : String → JValue
  | arr : List JValue → JValue
  | obj : List (String × JValue) → JValue

/-- The double-quote character. -/
def quoteC : Char := Char.ofNat 34

/-- The backslash character. -/
def backslashC : Char := Char.ofNat 92

/-- The opening-brace character. -/
def lbraceC : Char := Char.ofNat 123

/-- The closing-brace character. -/
def rbraceC : Char := Char.ofNat 125

/-- JSON insignificant whitespace (RFC 8259, also what Python json skips). -/
def jsonWs (c : Char) : Bool :=
  c == ' ' || c == '\t' || c == '\n' || c == '\r'

/-- Drop leading JSON whitespace. -/
def skipWs : List Char → List Char
  | [] => []
  | c :: cs => if jsonWs c then skipWs cs else c :: cs

/-- ASCII digit test. -/
def isDigitC (c : Char) : Bool :=
  48 ≤ c.toNat && c.toNat ≤ 57

/-- Hexadecimal digit value, if any. -/
def parseHexDigit (c : Char) : Option Nat :=
  if 48 ≤ c.toNat ∧ c.toNat ≤ 57 then some (c.toNat - 48)
  else if 97 ≤ c.toNat ∧ c.toNat ≤ 102 then some (c.toNat - 87)
  else if 65 ≤ c.toNat ∧ c.toNat ≤ 70 then some (c.toNat - 55)
  else none

/-- Parse the characters of a JSON string after the opening quote, with
fuel.  Returns the decoded characters and the remaining input.  Handles
the JSON escapes and rejects raw control characters, as Python json does
in its default strict mode. -/
def parseStrChars : Nat → List Char → Option (List Char × List Char)
  | 0, _ => none
  | _ + 1, [] => none
  | fuel + 1, c :: cs =>
    if c == quoteC then some ([], cs)
    else if c == backslashC then
      match cs with
      | [] => none
      | e :: cs2 =>
        let esc : Option (Char × List Char) :=
          if e == quoteC then some (quoteC, cs2)
          else if e == backslashC then some (backslashC, cs2)
          else if e == '/' then some ('/', cs2)
          else if e == 'b' then some (Char.ofNat 8, cs2)
          else if e == 'f' then some (Char.ofNat 12, cs2)
          else if e == 'n' then some ('\n', cs2)
          else if e == 'r' then some ('\r', cs2)
          else if e == 't' then some ('\t', cs2)
          else if e == 'u' then
            match cs2 with
            | h1 :: h2 :: h3 :: h4 :: cs3 =>
              match parseHexDigit h1, parseHexDigit h2, parseHexDigit h3, parseHexDigit h4 with
              | some a, some b, some c3, some d =>
                some (Char.ofNat (((a * 16 + b) * 16 + c3) * 16 + d), cs3)
              | _, _, _, _ => none
            | _ => none
          else none
        match esc with
        | none => none
        | some (ch, rest) =>
          match parseStrChars fuel rest with
          | some (acc, rest2) => some (ch :: acc, rest2)
          | none => none
    else if c.toNat < 32 then none
    else
      match parseStrChars fuel cs with
      | some (acc, rest) => some (c :: acc, rest)
      | none => none

/-- Parse a JSON string body with enough fuel for the whole input. -/
def parseJStr (cs : List Char) : Option (List Char × List Char) :=
  parseStrChars (cs.length + 1) cs

/-- Lex a JSON number (strict grammar: optional minus, no leading zeros,
optional fraction and exponent, each requiring at least one digit).
Returns the lexeme and the remaining input. -/
def lexNumber (cs : List Char) : Option (List Char × List Char) :=
  let signAndRest : List Char × List Char :=
    match cs with
    | c :: rest => if c == '-' then ([c], rest) else ([], cs)
    | [] => ([], cs)
  let sign := signAndRest.1
  let cs1 := signAndRest.2
  match cs1 with
  | [] => none
  | d :: rest =>
    if !(isDigitC d) then none
    else
      let intAndRest : List Char × List Char :=
        if d == '0' then ([d], rest)
        else (d :: rest.takeWhile isDigitC, rest.dropWhile isDigitC)
      let intPart := intAndRest.1
      let cs2 := intAndRest.2
      let fracAndRest : List Char × List Char :=
        match cs2 with
        | p :: rest2 =>
          if p == '.' then
            match rest2.takeWhile isDigitC with
            | [] => ([], cs2)
            | ds => (p :: ds, rest2.dropWhile isDigitC)
          else ([], cs2)
        | [] => ([], cs2)
      let fracPart := fracAndRest.1
      let cs3 := fracAndRest.2
      let expAndRest : List Char × List Char :=
        match cs3 with
        | e :: rest3 =>
          if e == 'e' || e == 'E' then
            let sgnAndRest : List Char × List Char :=
              match rest3 with
              | s :: r4 => if s == '+' || s == '-' then ([s], r4) else ([], rest3)
              | [] => ([], rest3)
            match sgnAndRest.2.takeWhile isDigitC with
            | [] => ([], cs3)
            | ds => (e :: (sgnAndRest.1 ++ ds), sgnAndRest.2.dropWhile isDigitC)
          else ([], cs3)
        | [] => ([], cs3)
      some (sign ++ intPart ++ fracPart ++ expAndRest.1, expAndRest.2)

/-- Intermediate result of the JSON parser: a single value, the items of
an array, or the members of an object, each with the remaining input. -/
inductive PRes where
  | pv : JValue → List Char → PRes
  | pitems : List JValue → List Char → PRes
  | pmembers : List (String × JValue) → List Char → PRes

/-- Parsing mode for `parseCore`. -/
inductive PMode where
  | value : PMode
  | items : PMode
  | members : PMode

/-- Fuel-based recursive-descent JSON parser; a single structural
recursion on the fuel so that concrete inputs evaluate by reduction. -/
def parseCore : Nat → PMode → List Char → Option PRes
  | 0, _, _ => none
  | fuel + 1, PMode.value, cs =>
    match cs with
    | [] => none
    | c :: rest =>
      if c == quoteC then
        match parseJStr rest with
        | some (sc, r) => some (PRes.pv (JValue.str (String.mk sc)) r)
        | none => none
      else if c == '[' then
        match skipWs rest with
        | c1 :: r1 =>
          if c1 == ']' then some (PRes.pv (JValue.arr []) r1)
          else
            match parseCore fuel PMode.items (c1 :: r1) with
            | some (PRes.pitems vs r2) => some (PRes.pv (JValue.arr vs) r2)
            | _ => none
        | [] => none
      else if c == lbraceC then
        match skipWs rest with
        | c1 :: r1 =>
          if c1 == rbraceC then some (PRes.pv (JValue.obj []) r1)
          else
            match parseCore fuel PMode.members (c1 :: r1) with
            | some (PRes.pmembers ms r2) => some (PRes.pv (JValue.obj ms) r2)
            | _ => none
        | [] => none
      else if c == 't' then
        match cs with
        | 't' :: 'r' :: 'u' :: 'e' :: r => some (PRes.pv (JValue.bool true) r)
        | _ => none
      else if c == 'f' then
        match cs with
        | 'f' :: 'a' :: 'l' :: 's' :: 'e' :: r => some (PRes.pv (JValue.bool false) r)
        | _ => none
      else if c == 'n' then
        match cs with
        | 'n' :: 'u' :: 'l' :: 'l' :: r => some (PRes.pv JValue.null r)
        | _ => none
      else
        match lexNumber cs with
        | some (lex, r) => some (PRes.pv (JValue.num (String.mk lex)) r)
        | none => none
  | fuel + 1, PMode.items, cs =>
    match parseCore fuel PMode.value (skipWs cs) with
    | some (PRes.pv v r) =>
      (match skipWs r with
       | ',' :: r2 =>
         match parseCore fuel PMode.items r2 with
         | some (PRes.pitems vs r3) => some (PRes.pitems (v :: vs) r3)
         | _ => none
       | c2 :: r2 => if c2 == ']' then some (PRes.pitems [v] r2) else none
       | [] => none)
    | _ => none
  | fuel + 1, PMode.members, cs =>
    match skipWs cs with
    | c :: r =>
      if c == quoteC then
        match parseJStr r with
        | some (kcs, r1) =>
          (match skipWs r1 with
           | ':' :: r2 =>
             (match parseCore fuel PMode.value (skipWs r2) with
              | some (PRes.pv v r3) =>
                (match skipWs r3 with
                 | ',' :: r4 =>
                   match parseCore fuel PMode.members r4 with
                   | some (PRes.pmembers ms r5) =>
                     some (PRes.pmembers ((String.mk kcs, v) :: ms) r5)
                   | _ => none
                 | c4 :: r4 =>
                   if c4 == rbraceC then some (PRes.pmembers [(String.mk kcs, v)] r4)
                   else none
                 | [] => none)
              | _ => none)
           | _ => none)
        | none => none
      else none
    | [] => none

/-- Parse one JSON value with the given fuel. -/
def parseValue (fuel : Nat) (cs : List Char) : Option (JValue × List Char) :=
  match parseCore fuel PMode.value cs with
  | some (PRes.pv v rest) => some (v, rest)
  | _ => none

/-- Model of Python `json.loads`: parse the whole input as a single JSON
value (trailing whitespace allowed, anything else rejected); `none`
models a raised `json.JSONDecodeError`. -/
def json_loads (s : String) : Option JValue :=
  let cs := s.toList
  match parseValue (2 * cs.length + 4) (skipWs cs) with
  | some (v, rest) => if skipWs rest = [] then some v else none
  | none => none

/-- Whether a JSON number lexeme denotes zero (mantissa digits all 0). -/
def numLexemeIsZero (s : String) : Bool :=
  let cs := s.toList
  let cs1 := match cs with
    | c :: rest => if c == '-' then rest else cs
    | [] => cs
  let mant := cs1.takeWhile (fun c => !(c == 'e') && !(c == 'E'))
  (mant.filter (fun c => !(c == '.'))).all (fun c => c == '0')

/-- Python truthiness of a decoded JSON value (`if value:`). -/
def JValue.truthy : JValue → Bool
  | JValue.null => false
  | JValue.bool b => b
  | JValue.num lex => !(numLexemeIsZero lex)
  | JValue.str s => !(s == "")
  | JValue.arr l => !l.isEmpty
  | JValue.obj l => !l.isEmpty

/-- Python truthiness of an optional value (`None` is falsy). -/
def truthyOpt : Option JValue → Bool
  | none => false
  | some v => v.truthy

/-! Embedding of `src/categorizer/utils/prompts.py` and of the engine class
in `src/categorizer/transaction_categorizer.py`.  A transaction record is
its description plus an opaque payload of passthrough fields; the network
interaction of a provider call is an oracle of type `Except PyExc String`
(either the raw response text that the call produced, or the exception it
raised anywhere before the response text was bound). -/

/-- One taxonomy entry, as loaded from the categories sheet. -/
structure TaxonomyEntry where
  category : String
  subcategory : String

/-- One input transaction row: the description (the join key) plus its
passthrough fields. -/
structure TxnRecord (α : Type) where
  description : String
  rest : α

/-- An opaque Python exception raised by the transport/provider layer. -/
inductive PyExc where
  | exc : String → PyExc

/-- Observable outcome of one `categorize_transactions` call:
`sentPrompt`/`submitted` record the system prompt and the JSON-encoded
batch handed to the provider (`none` = the provider client was never
invoked), and `result` is the Python return value (`Except.error` would be
a propagated exception; `some v` is a parsed JSON value, `none` is Python
`None`). -/
structure CallOutcome (α : Type) where
  sentPrompt : Option String
  submitted : Option (List (TxnRecord α))
  result : Except PyExc (Option JValue)

/-- Hexadecimal digit character for values 0-15. -/
def hexDigitChar (n : Nat) : Char :=
  if n < 10 then Char.ofNat (48 + n) else Char.ofNat (87 + n)

/-- Escape one character as Python `json.dumps` does inside a string. -/
def jsonEscapeChar (c : Char) : String :=
  if c == quoteC then String.mk [backslashC, quoteC]
  else if c == backslashC then String.mk [backslashC, backslashC]
  else if c == '\n' then String.mk [backslashC, 'n']
  else if c == '\r' then String.mk [backslashC, 'r']
  else if c == '\t' then String.mk [backslashC, 't']
  else if c.toNat == 8 then String.mk [backslashC, 'b']
  else if c.toNat == 12 then String.mk [backslashC, 'f']
  else if c.toNat < 32 then
    String.mk [backslashC, 'u', '0', '0', hexDigitChar (c.toNat / 16), hexDigitChar (c.toNat % 16)]
  else String.singleton c

/-- Serialize a string as a JSON string literal, as `json.dumps` does. -/
def jsonQuote (s : String) : String :=
  String.singleton quoteC ++ String.join (s.toList.map jsonEscapeChar) ++ String.singleton quoteC

/-- One taxonomy entry serialized by `json.dumps(categories_data, indent=2)`. -/
def taxonomyEntryJson (e : TaxonomyEntry) : String :=
  "  \x7b\n    " ++ jsonQuote "category" ++ ": " ++ jsonQuote e.category ++ ",\n    "
    ++ jsonQuote "subcategory" ++ ": " ++ jsonQuote e.subcategory ++ "\n  \x7d"

/-- `json.dumps(categories_data, indent=2)` for the taxonomy list. -/
def json_dumps_taxonomy (l : List TaxonomyEntry) : String :=
  match l with
  | [] => "[]"
  | _ => "[\n" ++ String.intercalate ",\n" (l.map taxonomyEntryJson) ++ "\n]"

/-- `json.dumps(example_output)` for the fixed example record in
`build_categorization_prompt`. -/
def exampleOutputJson : String :=
  "\x7b\"_Description\": \"paybyphone\", \"_Category\": \"Transportation\", "
    ++ "\"_Subcategory\": \"Parking\", \"_Confidence\": 7, "
    ++ "\"_Reasoning\": \"Paybyphone is a parking app\"\x7d"

/-- Embedding of `build_categorization_prompt` (prompts.py, lines 17-74):
the instructional prompt text with the serialized taxonomy and the output
schema embedded. -/
def build_categorization_prompt (categories_data : List TaxonomyEntry) : String :=
  let categories_json := json_dumps_taxonomy categories_data
  "\nYou are an expert transaction categorizer for a person who logs their personal expenses.\n"
    ++ "Please see the below categories and subcategories:\n\n```json\n"
    ++ categories_json
    ++ "\n```\n\nPlease categorize this JSON of transaction descriptions and add fields for category, subcategory, confidence level (1-10 with 10 being highest), and reasoning for each transaction:\n\n"
    ++ "For each transaction, please analyze the merchant name and amount (if provided) to determine the most likely category and subcategory. Include your reasoning for each classification and a confidence level indicating how certain you are about the categorization.\n\n"
    ++ "Return the result as a JSON array. Do not include any extra text, comments, or explanations. Output ONLY valid JSON in string. Do not return in a code block like \"```json\"\n\n"
    ++ "Example of an item in the json array:\n```json\n"
    ++ exampleOutputJson
    ++ "\n```\n\nImportant guidelines:\n"
    ++ "1. Always match to the closest existing category and subcategory - do not create new ones\n"
    ++ "2. Be specific in your reasoning, explaining why this merchant belongs to the chosen category\n"
    ++ "3. Only use the confidence level of 9-10 for obvious matches (e.g., \"TRADER JOE\x27S\" is clearly \"Food: Groceries\")\n"
    ++ "4. Use context clues from the merchant name to make educated guesses when necessary\n"
    ++ "5. If you\x27re truly uncertain, use a confidence level of 3 or lower\n"
    ++ "6. Keep in mind the codes in the description .i.e [CK] is a cheque and mostly likely represents rent and [DN] is direct deposit\n"

/-- Embedding of `OpenAITransactionCategorizer.categorize_transactions`
(prompts.py, lines 98-137).  An empty batch returns Python `None` without
invoking the client; otherwise the response text is stripped and parsed
with `json.loads`; a parse failure or any transport exception yields the
Python list `[]`; every path is inside `try/except`, so the result is
always `Except.ok`. -/
def OpenAITransactionCategorizer.categorize_transactions {α : Type}
    (prompt : String) (transactions_data : List (TxnRecord α))
    (transport : Except PyExc String) : CallOutcome α :=
  if transactions_data.length = 0 then
    { sentPrompt := none, submitted := none, result := Except.ok none }
  else
    match transport with
    | Except.error _e =>
      { sentPrompt := some prompt, submitted := some transactions_data,
        result := Except.ok (some (JValue.arr [])) }
    | Except.ok content =>
      let raw_output := pyStrip content
      match json_loads raw_output with
      | some categorized_transactions =>
        { sentPrompt := some prompt, submitted := some transactions_data,
          result := Except.ok (some categorized_transactions) }
      | none =>
        { sentPrompt := some prompt, submitted := some transactions_data,
          result := Except.ok (some (JValue.arr [])) }

/-- Embedding of `AnthropicTransactionCategorizer.categorize_transactions`
(prompts.py, lines 159-203).  The request side differs from the OpenAI
variant (messages API, `max_tokens=4000`), which is absorbed into the
transport oracle; the guard and the response handling are the same code. -/
def AnthropicTransactionCategorizer.categorize_transactions {α : Type}
    (prompt : String) (transactions_data : List (TxnRecord α))
    (transport : Except PyExc String) : CallOutcome α :=
  if transactions_data.length = 0 then
    { sentPrompt := none, submitted := none, result := Except.ok none }
  else
    match transport with
    | Except.error _e =>
      { sentPrompt := some prompt, submitted := some transactions_data,
        result := Except.ok (some (JValue.arr [])) }
    | Except.ok content =>
      let raw_output := pyStrip content
      match json_loads raw_output with
      | some categorized_transactions =>
        { sentPrompt := some prompt, submitted := some transactions_data,
          result := Except.ok (some categorized_transactions) }
      | none =>
        { sentPrompt := some prompt, submitted := some transactions_data,
          result := Except.ok (some (JValue.arr [])) }

/-- Embedding of `TransactionCategorizer.categorize_transactions`
(transaction_categorizer.py, lines 76-120): builds the prompt from the
taxonomy and submits the transaction list as-is (there is no empty-batch
guard and no deduplication in this engine); response handling is the same
strip/parse/fallback code as the providers. -/
def TransactionCategorizer.categorize_transactions {α : Type}
    (categories_data : List TaxonomyEntry) (transactions_data : List (TxnRecord α))
    (transport : Except PyExc String) : CallOutcome α :=
  let prompt := build_categorization_prompt categories_data
  match transport with
  | Except.error _e =>
    { sentPrompt := some prompt, submitted := some transactions_data,
      result := Except.ok (some (JValue.arr [])) }
  | Except.ok content =>
    let raw_output := pyStrip content
    match json_loads raw_output with
    | some categorized_transactions =>
      { sentPrompt := some prompt, submitted := some transactions_data,
        result := Except.ok (some categorized_transactions) }
    | none =>
      { sentPrompt := some prompt, submitted := some transactions_data,
        result := Except.ok (some (JValue.arr [])) }

/-! Embedding of `src/categorizer/utils/data_prep.py`.  A categorization
result row is typed with the fields the function reads (the dict keys
`_Description`, `_Category`, `_Subcategory`, `_Confidence`, `_Reasoning`
of the prompt's output schema); the original frame is a list of
`TxnRecord`, whose `description` field is the configured
`description_column`; `pd.merge(..., how='left')` followed by
`drop(columns=['_Description'])` is an explicit left join that preserves
the left order and, per left row, the right order of its matches.  The
raised `ValueError` is the `Except.error` case carrying the exact message
the source builds. -/

namespace data_prep

/-- One categorized transaction as returned by the LLM, with the dict
keys `prepare_categorized_data_for_sheet` reads. -/
structure CategorizedTxn where
  dDescription : String
  dCategory : String
  dSubcategory : String
  dConfidence : JValue
  dReasoning : String

/-- One row of `categorized_df` after lines 29-32: the combined
`Predicted Category` column replaces `_Category`/`_Subcategory`. -/
structure SheetCatRow where
  dDescription : String
  predictedCategory : String
  dConfidence : JValue
  dReasoning : String

/-- One row of the merged frame after the `_Description` column is
dropped: all original fields plus the three derived columns, which are
empty (NaN) for unmatched rows. -/
structure ReconRow (α : Type) where
  orig : TxnRecord α
  predictedCategory : Option String
  confidence : Option JValue
  reasoning : Option String

/-- Line 31: build one row of `categorized_df`, deriving
`Predicted Category` as `_Category.str.strip() + ": " + _Subcategory.str.strip()`. -/
def toSheetRow (t : CategorizedTxn) : SheetCatRow :=
  { dDescription := t.dDescription,
    predictedCategory := pyStrip t.dCategory ++ ": " ++ pyStrip t.dSubcategory,
    dConfidence := t.dConfidence,
    dReasoning := t.dReasoning }

/-- Lines 29-32: `categorized_df` from the categorized transactions. -/
def categorizedSheetRows : List CategorizedTxn → List SheetCatRow
  | [] => []
  | t :: ts => toSheetRow t :: categorizedSheetRows ts

/-- The rows the left merge produces for one original row: one row per
matching result, or a single row with empty derived columns when nothing
matches. -/
def mergeRow {α : Type} (categorized_df : List SheetCatRow) (t : TxnRecord α) :
    List (ReconRow α) :=
  match categorized_df.filter (fun c => c.dDescription == t.description) with
  | [] => [{ orig := t, predictedCategory := none, confidence := none, reasoning := none }]
  | m :: ms =>
    (m :: ms).map (fun m2 =>
      { orig := t, predictedCategory := some m2.predictedCategory,
        confidence := some m2.dConfidence, reasoning := some m2.dReasoning })

/-- Lines 42-48: the left merge, one block of rows per original row, in
the original order. -/
def mergeLeft {α : Type} : List (TxnRecord α) → List SheetCatRow → List (ReconRow α)
  | [], _ => []
  | t :: ts, categorized_df => mergeRow categorized_df t ++ mergeLeft ts categorized_df

/-- Lines 53-57: the exact `ValueError` message, which interpolates only
the number of extra rows. -/
def mergeErrorMessage (duplicated_rows : Nat) : String :=
  "❌ Merge increased rows by " ++ toString duplicated_rows
    ++ ". This likely means that multiple rows in `categorized_df` match the same description. "
    ++ "Ensure each description is unique or resolve one-to-many joins explicitly."

/-- The exceptions the function can raise, kept apart as Python keeps the
exception types apart: the `KeyError` from the `_Category` column access
at line 31 (when `pd.DataFrame([])` built from an empty results list has
no columns at all), and the `ValueError` raised at line 59. -/
inductive PrepError where
  | keyError : String → PrepError
  | valueError : String → PrepError

/-- Embedding of `prepare_categorized_data_for_sheet` (data_prep.py,
lines 12-67).  With an empty results list, `pd.DataFrame([])` at line 29
has no columns, so the `_Category` access at line 31 raises `KeyError`
before any merge.  With a non-empty list the typed rows provide every
column: the predicted labels are derived, left-joined onto the original
frame, and `ValueError` is raised when the merge increased the row
count. -/
def prepare_categorized_data_for_sheet {α : Type}
    (transactions_df : List (TxnRecord α))
    (categorized_transactions : List CategorizedTxn) :
    Except PrepError (List (ReconRow α)) :=
  match categorized_transactions with
  | [] => Except.error (PrepError.keyError "_Category")
  | t0 :: ts0 =>
    let categorized_df := categorizedSheetRows (t0 :: ts0)
    let original_row_count := transactions_df.length
    let result_df := mergeLeft transactions_df categorized_df
    if result_df.length > original_row_count then
      Except.error (PrepError.valueError
        (mergeErrorMessage (result_df.length - original_row_count)))
    else
      Except.ok result_df

end data_prep

/-! Embedding of the rest of `src/categorizer/transaction_categorizer.py`:
the module-level `prepare_categorized_data_for_sheet` (lines 122-164) and
the part of `main` that follows the categorization call (lines 209-235).
`main`'s own prepare works on raw result dicts, modelled as association
lists from column name to `JValue`; pandas column errors (a missing merge
key or a missing `Category` column) are the `Except.error` case, which
`main`'s blanket `except` turns into a logged error without a write. -/

namespace transaction_categorizer

/-- A raw result dict, as `pd.DataFrame(categorized_transactions)` sees it:
column name to value. -/
abbrev PyDict := List (String × JValue)

/-- Whether any dict contributes the given column. -/
def hasColumn (dicts : List PyDict) (k : String) : Bool :=
  dicts.any (fun d => d.any (fun kv => kv.1 == k))

/-- `categorized_df.rename(columns={'description': 'Description'})` on one row. -/
def renameKey (old new : String) (d : PyDict) : PyDict :=
  d.map (fun kv => if kv.1 == old then (new, kv.2) else kv)

/-- Cell lookup in one dict row. -/
def dictLookup (d : PyDict) (k : String) : Option JValue :=
  match d.find? (fun kv => kv.1 == k) with
  | some kv => some kv.2
  | none => none

/-- The rows `pd.merge(..., on='Description', how='left')` produces for
one original row. -/
def mergeRowMain {α : Type} (categorized_df : List PyDict) (t : TxnRecord α) :
    List (TxnRecord α × Option PyDict) :=
  match categorized_df.filter (fun d =>
      match dictLookup d "Description" with
      | some (JValue.str s) => s == t.description
      | _ => false) with
  | [] => [(t, none)]
  | m :: ms => (m :: ms).map (fun m2 => (t, some m2))

/-- The left merge of lines 148-153, block by block in the left order. -/
def mergeLeftMain {α : Type} :
    List (TxnRecord α) → List PyDict → List (TxnRecord α × Option PyDict)
  | [], _ => []
  | t :: ts, categorized_df => mergeRowMain categorized_df t ++ mergeLeftMain ts categorized_df

/-- Embedding of the module-level `prepare_categorized_data_for_sheet`
(transaction_categorizer.py, lines 122-164): rename `description` to
`Description` if present, left-merge on `Description` (a `KeyError` if
that column is absent from the results), then read the `Category` column
for the uncategorized count (a `KeyError` if absent).  There is no
row-count check in this variant.  The embedding assumes the original
frame carries its `Description` cell as the `description` field and no
result-named passthrough columns. -/
def prepare_categorized_data_for_sheet {α : Type}
    (transactions_df : List (TxnRecord α))
    (categorized_transactions : List PyDict) :
    Except String (List (TxnRecord α × Option PyDict)) :=
  let categorized_df :=
    if hasColumn categorized_transactions "description" then
      categorized_transactions.map (renameKey "description" "Description")
    else categorized_transactions
  if !(hasColumn categorized_df "Description") then
    Except.error "KeyError: Description"
  else
    let result_df := mergeLeftMain transactions_df categorized_df
    if !(hasColumn categorized_df "Category") then
      Except.error "KeyError: Category"
    else
      Except.ok result_df

/-- Turn a decoded JSON value into the list of dicts
`pd.DataFrame(categorized_transactions)` is built from; `none` models the
constructor (or the subsequent column operations) raising for
non-tabular input. -/
def itemsToDicts : List JValue → Option (List PyDict)
  | [] => some []
  | JValue.obj fields :: rest => (itemsToDicts rest).map (fun ds => fields :: ds)
  | _ :: _ => none

/-- See `itemsToDicts`: only a JSON array of objects is tabular. -/
def jsonToDicts : JValue → Option (List PyDict)
  | JValue.arr items => itemsToDicts items
  | _ => none

/-- Observable outcome of `main` after the categorization call:
whether line 232's "No transactions were categorized" warning fired,
whether the blanket `except` of lines 234-235 logged an exception, and
the frame written back to the sheet (`none` when nothing was written). -/
structure RunOutcome (α : Type) where
  warnedNoResults : Bool
  errorLogged : Bool
  written : Option (List (TxnRecord α × Option PyDict))

/-- Embedding of `main`'s output stage (transaction_categorizer.py, lines
209-235): `if categorized_transactions:` on the Python truthiness of the
engine's return value; the truthy branch reconciles and writes back, any
exception in it being caught and logged by the surrounding `try/except`;
the falsy branch only logs the warning.  No path re-raises. -/
def mainStep {α : Type} (transactions_df : List (TxnRecord α))
    (categorized_transactions : Option JValue) : RunOutcome α :=
  match categorized_transactions with
  | some v =>
    if v.truthy then
      match jsonToDicts v with
      | some dicts =>
        match prepare_categorized_data_for_sheet transactions_df dicts with
        | Except.ok updated_df =>
          { warnedNoResults := false, errorLogged := false, written := some updated_df }
        | Except.error _ =>
          { warnedNoResults := false, errorLogged := true, written := none }
      | none => { warnedNoResults := false, errorLogged := true, written := none }
    else { warnedNoResults := true, errorLogged := false, written := none }
  | none => { warnedNoResults := true, errorLogged := false, written := none }

end transaction_categorizer

/-! Helper lemmas about the left join of the reconciliation stage. -/

namespace data_prep

lemma mergeRow_length_pos {α : Type} (cdf : List SheetCatRow) (t : TxnRecord α) :
    1 ≤ (mergeRow cdf t).length := by
  unfold mergeRow
  split
  · simp
  · simp

lemma mergeRow_length_two_iff {α : Type} (cdf : List SheetCatRow) (t : TxnRecord α) :
    2 ≤ (mergeRow cdf t).length ↔
      2 ≤ (cdf.filter (fun c => c.dDescription == t.description)).length := by
  unfold mergeRow
  split
  · next heq => rw [heq]; simp
  · next m ms heq => rw [heq]; simp

lemma mergeRow_length_eq_one {α : Type} (cdf : List SheetCatRow) (t : TxnRecord α)
    (h : (cdf.filter (fun c => c.dDescription == t.description)).length ≤ 1) :
    (mergeRow cdf t).length = 1 := by
  unfold mergeRow
  split
  · rfl
  · next m ms heq =>
    rw [heq, List.length_cons] at h
    have hms : ms = [] := List.eq_nil_of_length_eq_zero (by omega)
    subst hms
    rfl

lemma length_mergeLeft_ge {α : Type} (txns : List (TxnRecord α)) (cdf : List SheetCatRow) :
    txns.length ≤ (mergeLeft txns cdf).length := by
  induction txns with
  | nil => simp [mergeLeft]
  | cons t ts ih =>
    have h1 := mergeRow_length_pos cdf t
    simp only [mergeLeft, List.length_append, List.length_cons]
    omega

lemma length_mergeLeft_gt_iff {α : Type} (txns : List (TxnRecord α)) (cdf : List SheetCatRow) :
    txns.length < (mergeLeft txns cdf).length ↔
      ∃ t ∈ txns, 2 ≤ (cdf.filter (fun c => c.dDescription == t.description)).length := by
  induction txns with
  | nil => simp [mergeLeft]
  | cons t ts ih =>
    simp only [mergeLeft, List.length_append, List.length_cons]
    constructor
    · intro h
      by_cases h2 : 2 ≤ (cdf.filter (fun c => c.dDescription == t.description)).length
      · exact ⟨t, List.mem_cons_self t ts, h2⟩
      · have h3 : (mergeRow cdf t).length = 1 := mergeRow_length_eq_one cdf t (by omega)
        have h4 : ts.length < (mergeLeft ts cdf).length := by omega
        obtain ⟨u, hu, h2u⟩ := ih.mp h4
        exact ⟨u, List.mem_cons_of_mem t hu, h2u⟩
    · rintro ⟨u, hu, h2u⟩
      rcases List.mem_cons.mp hu with rfl | hmem
      · have h5 := (mergeRow_length_two_iff cdf u).mpr h2u
        have h6 := length_mergeLeft_ge ts cdf
        omega
      · have h5 : ts.length < (mergeLeft ts cdf).length := ih.mpr ⟨u, hmem, h2u⟩
        have h6 := mergeRow_length_pos cdf t
        omega

lemma filter_categorizedSheetRows_length (results : List CategorizedTxn) (d : String) :
    ((categorizedSheetRows results).filter (fun c => c.dDescription == d)).length
      = (results.filter (fun r => r.dDescription == d)).length := by
  induction results with
  | nil => rfl
  | cons r rs ih =>
    simp only [categorizedSheetRows, List.filter_cons, toSheetRow]
    cases h : (r.dDescription == d) <;> simp [h, ih]

lemma mem_mergeLeft {α : Type} {row : ReconRow α} {txns : List (TxnRecord α)}
    {cdf : List SheetCatRow} :
    row ∈ mergeLeft txns cdf ↔ ∃ t ∈ txns, row ∈ mergeRow cdf t := by
  induction txns with
  | nil => simp [mergeLeft]
  | cons t ts ih =>
    constructor
    · intro h
      rcases List.mem_append.mp h with h | h
      · exact ⟨t, List.mem_cons_self t ts, h⟩
      · obtain ⟨u, hu, hr⟩ := ih.mp h
        exact ⟨u, List.mem_cons_of_mem t hu, hr⟩
    · rintro ⟨u, hu, hr⟩
      rcases List.mem_cons.mp hu with rfl | hu2
      · exact List.mem_append.mpr (Or.inl hr)
      · exact List.mem_append.mpr (Or.inr (ih.mpr ⟨u, hu2, hr⟩))

lemma mem_categorizedSheetRows {c : SheetCatRow} {l : List CategorizedTxn} :
    c ∈ categorizedSheetRows l ↔ ∃ r ∈ l, toSheetRow r = c := by
  induction l with
  | nil => simp [categorizedSheetRows]
  | cons r rs ih =>
    simp only [categorizedSheetRows, List.mem_cons, ih]
    constructor
    · rintro (h | ⟨x, hx, hxc⟩)
      · exact ⟨r, Or.inl rfl, h.symm⟩
      · exact ⟨x, Or.inr hx, hxc⟩
    · rintro ⟨x, hx | hx, hxc⟩
      · subst hx
        exact Or.inl hxc.symm
      · exact Or.inr ⟨x, hx, hxc⟩

lemma filter_length_le_one_of_nodup (results : List CategorizedTxn)
    (h : (results.map (fun r => r.dDescription)).Nodup) (d : String) :
    (results.filter (fun r => r.dDescription == d)).length ≤ 1 := by
  induction results with
  | nil => simp
  | cons r rs ih =>
    rw [List.map_cons, List.nodup_cons] at h
    obtain ⟨hnot, hnd⟩ := h
    rw [List.filter_cons]
    by_cases hb : (r.dDescription == d) = true
    · rw [if_pos hb]
      have hfil : rs.filter (fun x => x.dDescription == d) = [] := by
        rw [List.filter_eq_nil_iff]
        intro x hx hxd
        apply hnot
        rw [List.mem_map]
        refine ⟨x, hx, ?_⟩
        have h1 : x.dDescription = d := by simpa using hxd
        have h2 : r.dDescription = d := by simpa using hb
        rw [h1, h2]
      simp [hfil]
    · rw [if_neg hb]
      exact ih hnd

lemma mergeRow_singleton {α : Type} (cdf : List SheetCatRow) (t : TxnRecord α)
    (h : (cdf.filter (fun c => c.dDescription == t.description)).length ≤ 1) :
    ∃ row : ReconRow α, mergeRow cdf t = [row] ∧ row.orig = t := by
  unfold mergeRow
  split
  · exact ⟨_, rfl, rfl⟩
  · next m ms heq =>
    rw [heq, List.length_cons] at h
    have hms : ms = [] := List.eq_nil_of_length_eq_zero (by omega)
    subst hms
    exact ⟨_, rfl, rfl⟩

lemma mergeLeft_map_orig {α : Type} (txns : List (TxnRecord α)) (cdf : List SheetCatRow)
    (h : ∀ t ∈ txns, (cdf.filter (fun c => c.dDescription == t.description)).length ≤ 1) :
    (mergeLeft txns cdf).map (fun row => row.orig) = txns := by
  induction txns with
  | nil => rfl
  | cons t ts ih =>
    obtain ⟨row, hrow, horig⟩ := mergeRow_singleton cdf t (h t (List.mem_cons_self t ts))
    simp only [mergeLeft, List.map_append, hrow]
    rw [ih (fun u hu => h u (List.mem_cons_of_mem t hu))]
    simp [horig]

lemma mergeRow_cases {α : Type} {cdf : List SheetCatRow} {t : TxnRecord α} {row : ReconRow α}
    (h : row ∈ mergeRow cdf t) :
    (row.orig = t ∧ row.predictedCategory = none ∧
      ∀ c ∈ cdf, ¬(c.dDescription == t.description) = true) ∨
    (row.orig = t ∧ ∃ m ∈ cdf, (m.dDescription == t.description) = true ∧
      row.predictedCategory = some m.predictedCategory) := by
  unfold mergeRow at h
  split at h
  · next heq =>
    left
    simp only [List.mem_singleton] at h
    subst h
    exact ⟨rfl, rfl, List.filter_eq_nil_iff.mp heq⟩
  · next m ms heq =>
    right
    rw [List.mem_map] at h
    obtain ⟨m2, hm2, hrow⟩ := h
    have hm2f : m2 ∈ cdf.filter (fun c => c.dDescription == t.description) := by
      rw [heq]; exact hm2
    have hmf := List.mem_filter.mp hm2f
    subst hrow
    exact ⟨rfl, m2, hmf.1, hmf.2, rfl⟩

end data_prep

/-! The claims, settled against the embedded code. -/

/-- Claim C1, amended to what the code does: a reconciliation call with
an empty results list raises `KeyError` at the `_Category` column access
before any merge; every other call either returns exactly as many rows
as the original frame, or, when the left join produces more rows than
the original, raises `ValueError` — and the raised message reports only
the number of extra rows, not which descriptions are duplicated. -/
theorem prepare_rowcount_eq_or_error_reports_count {α : Type}
    (transactions_df : List (TxnRecord α)) (results : List data_prep.CategorizedTxn) :
    (results = [] ∧
      data_prep.prepare_categorized_data_for_sheet transactions_df results
        = Except.error (data_prep.PrepError.keyError "_Category")) ∨
    (∃ out, data_prep.prepare_categorized_data_for_sheet transactions_df results
        = Except.ok out ∧ out.length = transactions_df.length) ∨
    (transactions_df.length
        < (data_prep.mergeLeft transactions_df (data_prep.categorizedSheetRows results)).length ∧
      data_prep.prepare_categorized_data_for_sheet transactions_df results
        = Except.error (data_prep.PrepError.valueError (data_prep.mergeErrorMessage
            ((data_prep.mergeLeft transactions_df
                (data_prep.categorizedSheetRows results)).length
              - transactions_df.length)))) := by
  cases results with
  | nil => exact Or.inl ⟨rfl, rfl⟩
  | cons r rs =>
    simp only [data_prep.prepare_categorized_data_for_sheet]
    split
    · next h => exact Or.inr (Or.inr ⟨h, rfl⟩)
    · next h =>
      refine Or.inr (Or.inl ⟨_, rfl, ?_⟩)
      have h2 := data_prep.length_mergeLeft_ge transactions_df
        (data_prep.categorizedSheetRows (r :: rs))
      omega

/-- Claim C1 fails as stated: with the description `"DUPSHOP"` duplicated
on the results side, the call raises, but the message does not report the
duplicated description — it reports only the row-count increase. -/
theorem prepare_duplicate_error_omits_description :
    data_prep.prepare_categorized_data_for_sheet
        [(⟨"DUPSHOP", ()⟩ : TxnRecord Unit)]
        [⟨"DUPSHOP", "A", "B", JValue.num "1", "r1"⟩,
         ⟨"DUPSHOP", "C", "D", JValue.num "2", "r2"⟩]
      = Except.error (data_prep.PrepError.valueError (data_prep.mergeErrorMessage 1)) ∧
    strContains (data_prep.mergeErrorMessage 1) "DUPSHOP" = false :=
  ⟨rfl, rfl⟩

/-- Claim C2: in every successful reconciliation, an output row either
has an empty label and no matching result, or carries the label
`category.strip() + ": " + subcategory.strip()` of a matching result; and
`"Food"` with `" Groceries "` derives exactly `"Food: Groceries"`. -/
theorem prepare_predicted_label_derivation {α : Type}
    (transactions_df : List (TxnRecord α)) (results : List data_prep.CategorizedTxn)
    (out : List (data_prep.ReconRow α)) (row : data_prep.ReconRow α)
    (hout : data_prep.prepare_categorized_data_for_sheet transactions_df results
      = Except.ok out)
    (hrow : row ∈ out) :
    ((row.predictedCategory = none ∧
        ∀ r ∈ results, r.dDescription ≠ row.orig.description) ∨
      (∃ r ∈ results, r.dDescription = row.orig.description ∧
        row.predictedCategory
          = some (pyStrip r.dCategory ++ ": " ++ pyStrip r.dSubcategory))) ∧
    pyStrip "Food" ++ ": " ++ pyStrip " Groceries " = "Food: Groceries" := by
  refine ⟨?_, rfl⟩
  have hout2 : out
      = data_prep.mergeLeft transactions_df (data_prep.categorizedSheetRows results) := by
    cases results with
    | nil => simp [data_prep.prepare_categorized_data_for_sheet] at hout
    | cons r rs =>
      simp only [data_prep.prepare_categorized_data_for_sheet] at hout
      split at hout
      · exact absurd hout (by simp)
      · injection hout with h
        exact h.symm
  subst hout2
  obtain ⟨t, _ht, hmr⟩ := data_prep.mem_mergeLeft.mp hrow
  rcases data_prep.mergeRow_cases hmr with ⟨horig, hpred, hall⟩ | ⟨horig, m, hm, hbeq, hpred⟩
  · left
    refine ⟨hpred, ?_⟩
    intro r hr heq
    apply hall (data_prep.toSheetRow r) (data_prep.mem_categorizedSheetRows.mpr ⟨r, hr, rfl⟩)
    have : r.dDescription = t.description := by rw [← horig]; exact heq
    simpa [data_prep.toSheetRow] using this
  · right
    obtain ⟨r, hr, hrm⟩ := data_prep.mem_categorizedSheetRows.mp hm
    refine ⟨r, hr, ?_, ?_⟩
    · have h1 : m.dDescription = t.description := by simpa using hbeq
      have h2 : r.dDescription = m.dDescription := by rw [← hrm]; rfl
      rw [h2, h1, horig]
    · rw [hpred, ← hrm]
      rfl

/-- Claim C2 witness: the concrete run with category `"Food"` and
subcategory `" Groceries "`. -/
theorem prepare_predicted_label_derivation_witness :
    (((⟨⟨"T", ()⟩, some "Food: Groceries", some (JValue.num "7"), some "ok"⟩ :
          data_prep.ReconRow Unit).predictedCategory = none ∧
        ∀ r ∈ [(⟨"T", "Food", " Groceries ", JValue.num "7", "ok"⟩ :
            data_prep.CategorizedTxn)],
          r.dDescription ≠ (⟨⟨"T", ()⟩, some "Food: Groceries", some (JValue.num "7"),
            some "ok"⟩ : data_prep.ReconRow Unit).orig.description) ∨
      (∃ r ∈ [(⟨"T", "Food", " Groceries ", JValue.num "7", "ok"⟩ :
          data_prep.CategorizedTxn)],
        r.dDescription = (⟨⟨"T", ()⟩, some "Food: Groceries", some (JValue.num "7"),
          some "ok"⟩ : data_prep.ReconRow Unit).orig.description ∧
        (⟨⟨"T", ()⟩, some "Food: Groceries", some (JValue.num "7"), some "ok"⟩ :
          data_prep.ReconRow Unit).predictedCategory
          = some (pyStrip r.dCategory ++ ": " ++ pyStrip r.dSubcategory))) ∧
    pyStrip "Food" ++ ": " ++ pyStrip " Groceries " = "Food: Groceries" :=
  prepare_predicted_label_derivation [⟨"T", ()⟩]
    [⟨"T", "Food", " Groceries ", JValue.num "7", "ok"⟩]
    [⟨⟨"T", ()⟩, some "Food: Groceries", some (JValue.num "7"), some "ok"⟩]
    ⟨⟨"T", ()⟩, some "Food: Groceries", some (JValue.num "7"), some "ok"⟩
    rfl (List.mem_singleton.mpr rfl)

/-- Claim C3: for a non-empty batch, if the transport raised, or the raw
response text does not parse as JSON, both provider variants return the
Python list `[]` and propagate no exception. -/
theorem categorize_transactions_failure_returns_empty {α : Type}
    (prompt : String) (batch : List (TxnRecord α)) (transport : Except PyExc String)
    (hne : batch ≠ [])
    (hfail : ∀ raw, transport = Except.ok raw → json_loads (pyStrip raw) = none) :
    (OpenAITransactionCategorizer.categorize_transactions prompt batch transport).result
        = Except.ok (some (JValue.arr [])) ∧
    (AnthropicTransactionCategorizer.categorize_transactions prompt batch transport).result
        = Except.ok (some (JValue.arr [])) := by
  have hlen : ¬ batch.length = 0 := by simpa [List.length_eq_zero] using hne
  constructor
  · cases transport with
    | error e =>
      simp only [OpenAITransactionCategorizer.categorize_transactions]
      rw [if_neg hlen]
    | ok raw =>
      have hf := hfail raw rfl
      simp only [OpenAITransactionCategorizer.categorize_transactions]
      rw [if_neg hlen, hf]
  · cases transport with
    | error e =>
      simp only [AnthropicTransactionCategorizer.categorize_transactions]
      rw [if_neg hlen]
    | ok raw =>
      have hf := hfail raw rfl
      simp only [AnthropicTransactionCategorizer.categorize_transactions]
      rw [if_neg hlen, hf]

/-- Claim C3 witness: the non-JSON response text `"not json"`. -/
theorem categorize_transactions_failure_returns_empty_witness :
    (OpenAITransactionCategorizer.categorize_transactions "p"
        [(⟨"WALMART", ()⟩ : TxnRecord Unit)] (Except.ok "not json")).result
      = Except.ok (some (JValue.arr [])) ∧
    (AnthropicTransactionCategorizer.categorize_transactions "p"
        [(⟨"WALMART", ()⟩ : TxnRecord Unit)] (Except.ok "not json")).result
      = Except.ok (some (JValue.arr [])) :=
  categorize_transactions_failure_returns_empty "p" [⟨"WALMART", ()⟩]
    (Except.ok "not json") (List.cons_ne_nil _ _)
    (fun raw h => by cases h; rfl)

/-- Claim C4, amended to what the code does: the engine performs no
deduplication — it submits the transaction list exactly as received, so
the number of descriptions submitted equals the full input count,
duplicates included. -/
theorem engine_submits_batch_unchanged {α : Type}
    (categories_data : List TaxonomyEntry) (transactions_data : List (TxnRecord α))
    (transport : Except PyExc String) :
    (TransactionCategorizer.categorize_transactions categories_data transactions_data
        transport).submitted = some transactions_data := by
  cases transport with
  | error e => rfl
  | ok content =>
    simp only [TransactionCategorizer.categorize_transactions]
    cases json_loads (pyStrip content) <;> rfl

/-- Claim C4 fails as stated: a batch with `"WALMART"` twice submits two
descriptions, while the count of distinct description values is one. -/
theorem engine_no_dedup_counterexample :
    (TransactionCategorizer.categorize_transactions [⟨"Food", "Groceries"⟩]
        [(⟨"WALMART", ()⟩ : TxnRecord Unit), ⟨"WALMART", ()⟩]
        (Except.ok "[]")).submitted
      = some [⟨"WALMART", ()⟩, ⟨"WALMART", ()⟩] ∧
    (([(⟨"WALMART", ()⟩ : TxnRecord Unit), ⟨"WALMART", ()⟩].map
        (fun t => t.description)).dedup).length = 1 ∧
    (2 : Nat) ≠ 1 :=
  ⟨rfl, by decide, by decide⟩

/-- Claim C5: on an empty batch both provider variants return Python
`None` immediately, with no prompt sent and no batch submitted — the
client is never invoked — and nothing is raised. -/
theorem categorize_transactions_empty_batch_no_call {α : Type}
    (prompt : String) (transport : Except PyExc String) :
    OpenAITransactionCategorizer.categorize_transactions prompt
        ([] : List (TxnRecord α)) transport
      = { sentPrompt := none, submitted := none, result := Except.ok none } ∧
    AnthropicTransactionCategorizer.categorize_transactions prompt
        ([] : List (TxnRecord α)) transport
      = { sentPrompt := none, submitted := none, result := Except.ok none } :=
  ⟨rfl, rfl⟩

/-- Claim C6, amended to what the code does: for a non-empty batch the
response text is stripped and parsed as general JSON, not array-only:
unparsable text yields the empty list, and any successfully parsed JSON
value — array or not — is returned as-is, in both variants. -/
theorem response_trim_parse_general_json {α : Type}
    (prompt : String) (batch : List (TxnRecord α)) (raw : String)
    (hne : batch ≠ []) :
    (OpenAITransactionCategorizer.categorize_transactions prompt batch
        (Except.ok raw)).result
      = Except.ok (some ((json_loads (pyStrip raw)).getD (JValue.arr []))) ∧
    (AnthropicTransactionCategorizer.categorize_transactions prompt batch
        (Except.ok raw)).result
      = Except.ok (some ((json_loads (pyStrip raw)).getD (JValue.arr []))) := by
  have hlen : ¬ batch.length = 0 := by simpa [List.length_eq_zero] using hne
  constructor
  · simp only [OpenAITransactionCategorizer.categorize_transactions]
    rw [if_neg hlen]
    cases json_loads (pyStrip raw) <;> rfl
  · simp only [AnthropicTransactionCategorizer.categorize_transactions]
    rw [if_neg hlen]
    cases json_loads (pyStrip raw) <;> rfl

/-- Claim C6 witness: the response text `" 7 "`. -/
theorem response_trim_parse_general_json_witness :
    (OpenAITransactionCategorizer.categorize_transactions "p"
        [(⟨"WALMART", ()⟩ : TxnRecord Unit)] (Except.ok " 7 ")).result
      = Except.ok (some ((json_loads (pyStrip " 7 ")).getD (JValue.arr []))) ∧
    (AnthropicTransactionCategorizer.categorize_transactions "p"
        [(⟨"WALMART", ()⟩ : TxnRecord Unit)] (Except.ok " 7 ")).result
      = Except.ok (some ((json_loads (pyStrip " 7 ")).getD (JValue.arr []))) :=
  response_trim_parse_general_json "p" [⟨"WALMART", ()⟩] " 7 " (List.cons_ne_nil _ _)

/-- Claim C6 fails as stated: the trimmed text `"7"` is valid JSON but
not a JSON array, yet the call returns the parsed number, not the empty
sequence. -/
theorem response_non_array_json_counterexample :
    (OpenAITransactionCategorizer.categorize_transactions "p"
        [(⟨"WALMART", ()⟩ : TxnRecord Unit)] (Except.ok " 7 ")).result
      = Except.ok (some (JValue.num "7")) ∧
    JValue.num "7" ≠ JValue.arr [] :=
  ⟨rfl, fun h => JValue.noConfusion h⟩

/-- Claim C7: the OpenAI-style and the Anthropic-style variant have
identical observable behaviour — for every prompt, batch and transport
outcome (raw text or raised exception) they return the same value. -/
theorem provider_variants_response_equivalence {α : Type}
    (prompt : String) (batch : List (TxnRecord α)) (transport : Except PyExc String) :
    OpenAITransactionCategorizer.categorize_transactions prompt batch transport
      = AnthropicTransactionCategorizer.categorize_transactions prompt batch transport :=
  rfl

/-- Claim C8, amended to what the code does: whenever the provider
returned no results (Python `None` or the empty list), `main` logs the
"No transactions were categorized" warning and skips reconciliation and
the sheet write entirely — no dataset is produced — and nothing raises. -/
theorem main_no_results_warns_and_skips {α : Type}
    (transactions_df : List (TxnRecord α)) (r : Option JValue)
    (h : r = none ∨ r = some (JValue.arr [])) :
    transaction_categorizer.mainStep transactions_df r
      = { warnedNoResults := true, errorLogged := false, written := none } := by
  rcases h with rfl | rfl
  · rfl
  · rfl

/-- Claim C8 witness: the empty result list. -/
theorem main_no_results_warns_and_skips_witness :
    transaction_categorizer.mainStep [(⟨"WALMART", ()⟩ : TxnRecord Unit)]
        (some (JValue.arr []))
      = { warnedNoResults := true, errorLogged := false, written := none } :=
  main_no_results_warns_and_skips [⟨"WALMART", ()⟩] (some (JValue.arr [])) (Or.inr rfl)

/-- Claim C8 fails as stated: with empty results no reconciled dataset is
produced at all — nothing is written back — rather than a dataset with
zero predicted labels. -/
theorem main_no_results_no_dataset_counterexample :
    (transaction_categorizer.mainStep [(⟨"WALMART", ()⟩ : TxnRecord Unit)]
        (some (JValue.arr []))).written = none ∧
    ¬ ∃ updated_df, (transaction_categorizer.mainStep
        [(⟨"WALMART", ()⟩ : TxnRecord Unit)] (some (JValue.arr []))).written
          = some updated_df := by
  refine ⟨rfl, ?_⟩
  rintro ⟨df, hdf⟩
  rw [show (transaction_categorizer.mainStep [(⟨"WALMART", ()⟩ : TxnRecord Unit)]
      (some (JValue.arr []))).written = none from rfl] at hdf
  exact Option.noConfusion hdf

/-- Claim C9, amended to what the code does: with a NON-EMPTY results
list whose descriptions are duplicate-free, the reconciliation succeeds
and its output is exactly the original rows in order with every original
field unchanged, the derived columns being the only additions; the empty
results list — also duplicate-free — instead raises `KeyError` before
any merge and produces no output. -/
theorem prepare_preserves_original_rows {α : Type}
    (transactions_df : List (TxnRecord α)) (results : List data_prep.CategorizedTxn)
    (hne : results ≠ [])
    (hnd : (results.map (fun r => r.dDescription)).Nodup) :
    ∃ out, data_prep.prepare_categorized_data_for_sheet transactions_df results
        = Except.ok out ∧
      out.map (fun row => row.orig) = transactions_df := by
  cases results with
  | nil => exact absurd rfl hne
  | cons r rs =>
    have hle : ∀ t : TxnRecord α, ((data_prep.categorizedSheetRows (r :: rs)).filter
        (fun c => c.dDescription == t.description)).length ≤ 1 := by
      intro t
      rw [data_prep.filter_categorizedSheetRows_length]
      exact data_prep.filter_length_le_one_of_nodup (r :: rs) hnd t.description
    have hmap := data_prep.mergeLeft_map_orig transactions_df
      (data_prep.categorizedSheetRows (r :: rs)) (fun t _ => hle t)
    have hlen : (data_prep.mergeLeft transactions_df
        (data_prep.categorizedSheetRows (r :: rs))).length = transactions_df.length := by
      have h3 := congrArg List.length hmap
      simpa using h3
    refine ⟨data_prep.mergeLeft transactions_df (data_prep.categorizedSheetRows (r :: rs)),
      ?_, hmap⟩
    simp only [data_prep.prepare_categorized_data_for_sheet]
    rw [if_neg (by omega)]

/-- Claim C9 witness: one original row, one matching result. -/
theorem prepare_preserves_original_rows_witness :
    ∃ out, data_prep.prepare_categorized_data_for_sheet
        [(⟨"WALMART", ()⟩ : TxnRecord Unit)]
        [⟨"WALMART", "Food", "Groceries", JValue.num "7", "r"⟩]
        = Except.ok out ∧
      out.map (fun row => row.orig) = [⟨"WALMART", ()⟩] :=
  prepare_preserves_original_rows [⟨"WALMART", ()⟩]
    [⟨"WALMART", "Food", "Groceries", JValue.num "7", "r"⟩]
    (List.cons_ne_nil _ _) (by decide)

/-- Claim C9 fails as stated: the empty results list is duplicate-free,
yet the call raises `KeyError` at the `_Category` column access
(`pd.DataFrame([])` has no columns) and produces no output at all. -/
theorem prepare_empty_results_raises_counterexample :
    (([] : List data_prep.CategorizedTxn).map (fun r => r.dDescription)).Nodup ∧
    data_prep.prepare_categorized_data_for_sheet [(⟨"WALMART", ()⟩ : TxnRecord Unit)]
        ([] : List data_prep.CategorizedTxn)
      = Except.error (data_prep.PrepError.keyError "_Category") ∧
    ¬ ∃ out, data_prep.prepare_categorized_data_for_sheet
        [(⟨"WALMART", ()⟩ : TxnRecord Unit)] ([] : List data_prep.CategorizedTxn)
      = Except.ok out := by
  refine ⟨by simp, rfl, ?_⟩
  rintro ⟨out, hout⟩
  rw [show data_prep.prepare_categorized_data_for_sheet
      [(⟨"WALMART", ()⟩ : TxnRecord Unit)] ([] : List data_prep.CategorizedTxn)
      = Except.error (data_prep.PrepError.keyError "_Category") from rfl] at hout
  exact Except.noConfusion hout

/-- Claim C10: the duplicate-detection `ValueError` is raised exactly
when some original row's description is matched by two or more result
rows; duplicate results that match no original row are silently
accepted, and the empty results list raises a `KeyError`, never this
`ValueError`. -/
theorem prepare_error_iff_duplicate_match {α : Type}
    (transactions_df : List (TxnRecord α)) (results : List data_prep.CategorizedTxn) :
    (∃ m, data_prep.prepare_categorized_data_for_sheet transactions_df results
        = Except.error (data_prep.PrepError.valueError m))
      ↔ ∃ t ∈ transactions_df,
          2 ≤ (results.filter (fun r => r.dDescription == t.description)).length := by
  cases results with
  | nil =>
    constructor
    · rintro ⟨m, hm⟩
      rw [show data_prep.prepare_categorized_data_for_sheet transactions_df
          ([] : List data_prep.CategorizedTxn)
          = Except.error (data_prep.PrepError.keyError "_Category") from rfl] at hm
      injection hm with h
      exact data_prep.PrepError.noConfusion h
    · rintro ⟨t, ht, h2t⟩
      simp at h2t
  | cons r rs =>
    have h1 := data_prep.length_mergeLeft_gt_iff transactions_df
      (data_prep.categorizedSheetRows (r :: rs))
    have h2 : ∀ t : TxnRecord α,
        ((data_prep.categorizedSheetRows (r :: rs)).filter
          (fun c => c.dDescription == t.description)).length
        = ((r :: rs).filter (fun x => x.dDescription == t.description)).length :=
      fun t => data_prep.filter_categorizedSheetRows_length (r :: rs) t.description
    constructor
    · rintro ⟨m, he⟩
      simp only [data_prep.prepare_categorized_data_for_sheet] at he
      split at he
      · next hgt =>
        obtain ⟨t, ht, h2t⟩ := h1.mp hgt
        refine ⟨t, ht, ?_⟩
        rw [← h2 t]
        exact h2t
      · exact absurd he (by simp)
    · rintro ⟨t, ht, h2t⟩
      have hgt : transactions_df.length < (data_prep.mergeLeft transactions_df
          (data_prep.categorizedSheetRows (r :: rs))).length := by
        refine h1.mpr ⟨t, ht, ?_⟩
        rw [h2 t]
        exact h2t
      simp only [data_prep.prepare_categorized_data_for_sheet]
      rw [if_pos hgt]
      exact ⟨_, rfl⟩
